import Mathlib

/-!
Verification development for the `research_Agent` repository.

This file gives a shallow embedding, in Lean 4, of the parts of the
repository that the specification claims talk about:

* `app/llm/client.py` — the structured-response brace extraction and the
  `json.loads` post-processing of `GroqClient.generate_structured_response`;
* `app/models/research.py` — the Pydantic data models;
* `app/agents/critic.py` — the construction of `CritiqueFeedback` from the
  structured LLM response;
* `app/tools/web_search.py`, `app/tools/wikipedia.py`,
  `app/tools/arxiv_search.py`, `app/agents/researcher.py` — the evidence
  gathering pipeline;
* `app/orchestrator/coordinator.py` — `conduct_research` and the
  self-correction loop.

External effects (LLM calls, HTTP requests, the database) are modelled by
explicit environment records of functions returning `Except String _`
(`.error e` models the Python call raising an exception whose `str` is `e`).
Database writes of intermediate statuses are not modelled; the agent message
log written through `_log_agent_message` is modelled as an explicit list of
`LogMsg` values returned alongside the result.
-/

/-! ## JSON values, modelling Python `json` objects -/

/-- JSON value, as produced by Python's `json.loads`.  Numbers are modelled
as rationals (Python distinguishes int and float; the distinction is not
observable in the claimed properties). -/
inductive Json : Type where
  | null : Json
  | bool : Bool → Json
  | num : ℚ → Json
  | str : String → Json
  | arr : List Json → Json
  | obj : List (String × Json) → Json

/-- Dictionary lookup, modelling Python `dict.get(k)` on a parsed JSON
object (returns `none` when the receiver is not an object or lacks the
key). -/
def Json.get : Json → String → Option Json
  | .obj kvs, k => kvs.lookup k
  | _, _ => none

/-! ## A model of `json.loads`

Executable recursive-descent reading of JSON text, used to model the call
`json.loads(json_str)` in `GroqClient.generate_structured_response`.
Simplifications relative to CPython's `json` module, none of which affect
the claims under study: `\uXXXX` string escapes are rejected rather than
decoded, exponent notation and leading-zero tests on numbers are not
implemented, and error messages are not reproduced (the model returns
`none` exactly where `json.loads` raises `JSONDecodeError`). -/

/-- The character `{` (written numerically so that the source text stays
free of brace literals). -/
def lBraceChar : Char := Char.ofNat 123

/-- The character `}`. -/
def rBraceChar : Char := Char.ofNat 125

/-- The double-quote character. -/
def quoteChar : Char := Char.ofNat 34

/-- The backslash character. -/
def backslashChar : Char := Char.ofNat 92

/-- Skip JSON whitespace. -/
def skipWs : List Char → List Char
  | c :: cs =>
    if c = ' ' ∨ c = '\t' ∨ c = '\n' ∨ c = '\r' then skipWs cs else c :: cs
  | [] => []

/-- Decode a single-character string escape (the `\uXXXX` form is not
modelled and is rejected). -/
def escChar (c : Char) : Option Char :=
  if c = quoteChar then some quoteChar
  else if c = backslashChar then some backslashChar
  else if c = '/' then some '/'
  else if c = 'n' then some '\n'
  else if c = 't' then some '\t'
  else if c = 'r' then some '\r'
  else if c = 'b' then some (Char.ofNat 8)
  else if c = 'f' then some (Char.ofNat 12)
  else none

/-- Read the body of a JSON string literal (the opening quote already
consumed), returning the decoded characters and the rest of the input. -/
def parseStrChars : List Char → Option (List Char × List Char)
  | [] => none
  | c :: rest =>
    if c = quoteChar then some ([], rest)
    else if c = backslashChar then
      match rest with
      | [] => none
      | e :: rest2 =>
        match escChar e with
        | none => none
        | some d => (parseStrChars rest2).map fun p => (d :: p.1, p.2)
    else (parseStrChars rest).map fun p => (c :: p.1, p.2)

/-- Accumulate a digit string into a natural number. -/
def digitsToNat (ds : List Char) : Nat :=
  ds.foldl (fun a c => a * 10 + (c.toNat - 48)) 0

/-- Read a JSON number (optional minus sign, integer part, optional
fractional part). -/
def parseNumber (l : List Char) : Option (ℚ × List Char) :=
  let (neg, l1) :=
    match l with
    | c :: rest => if c = '-' then (true, rest) else (false, l)
    | [] => (false, l)
  let (ds, l2) := l1.span Char.isDigit
  if ds.isEmpty then none
  else
    let intPart : ℚ := (digitsToNat ds : ℚ)
    let (value, l4) :=
      match l2 with
      | c :: rest =>
        if c = '.' then
          let (fs, l3) := rest.span Char.isDigit
          if fs.isEmpty then (none, l2)
          else (some (intPart + (digitsToNat fs : ℚ) / ((10 : ℚ) ^ fs.length)), l3)
        else (some intPart, l2)
      | [] => (some intPart, l2)
    match value with
    | none => none
    | some v => some (if neg then -v else v, l4)

mutual

/-- Read one JSON value, fuel-indexed (the fuel only bounds recursion depth;
`jsonLoads` supplies enough fuel for any input, since every recursive call
consumes at least one input character). -/
def parseValue : Nat → List Char → Option (Json × List Char)
  | 0, _ => none
  | n + 1, l =>
    match skipWs l with
    | [] => none
    | c :: rest =>
      if c = quoteChar then
        (parseStrChars rest).map fun p => (Json.str (String.mk p.1), p.2)
      else if c = lBraceChar then
        match skipWs rest with
        | [] => none
        | c2 :: r2 =>
          if c2 = rBraceChar then some (Json.obj [], r2)
          else (parseMembersAux n (c2 :: r2)).map fun p => (Json.obj p.1, p.2)
      else if c = '[' then
        match skipWs rest with
        | [] => none
        | c2 :: r2 =>
          if c2 = ']' then some (Json.arr [], r2)
          else (parseElemsAux n (c2 :: r2)).map fun p => (Json.arr p.1, p.2)
      else if c = 't' then
        match rest with
        | 'r' :: 'u' :: 'e' :: r => some (Json.bool true, r)
        | _ => none
      else if c = 'f' then
        match rest with
        | 'a' :: 'l' :: 's' :: 'e' :: r => some (Json.bool false, r)
        | _ => none
      else if c = 'n' then
        match rest with
        | 'u' :: 'l' :: 'l' :: r => some (Json.null, r)
        | _ => none
      else
        (parseNumber (c :: rest)).map fun p => (Json.num p.1, p.2)

/-- Read the members of a JSON object (at least one; the closing brace is
consumed). -/
def parseMembersAux : Nat → List Char → Option (List (String × Json) × List Char)
  | 0, _ => none
  | n + 1, l =>
    match skipWs l with
    | [] => none
    | c :: rest =>
      if c = quoteChar then
        match parseStrChars rest with
        | none => none
        | some (ks, r1) =>
          match skipWs r1 with
          | [] => none
          | c2 :: r2 =>
            if c2 = ':' then
              match parseValue n r2 with
              | none => none
              | some (v, r3) =>
                match skipWs r3 with
                | [] => none
                | c3 :: r4 =>
                  if c3 = ',' then
                    match parseMembersAux n r4 with
                    | none => none
                    | some (ps, r5) => some ((String.mk ks, v) :: ps, r5)
                  else if c3 = rBraceChar then some ([(String.mk ks, v)], r4)
                  else none
            else none
      else none

/-- Read the elements of a JSON array (at least one; the closing bracket is
consumed). -/
def parseElemsAux : Nat → List Char → Option (List Json × List Char)
  | 0, _ => none
  | n + 1, l =>
    match parseValue n l with
    | none => none
    | some (v, r1) =>
      match skipWs r1 with
      | [] => none
      | c :: r2 =>
        if c = ',' then
          (parseElemsAux n r2).map fun p => (v :: p.1, p.2)
        else if c = ']' then some ([v], r2)
        else none

end

/-- Model of Python `json.loads`: `none` exactly where the Python call
raises `json.JSONDecodeError`. -/
def jsonLoads (s : String) : Option Json :=
  match parseValue (s.data.length + 1) s.data with
  | none => none
  | some (v, rest) => if (skipWs rest).isEmpty then some v else none

/-! ## Structured-response extraction

Model of the parsing phase of `GroqClient.generate_structured_response`
(`app/llm/client.py`, lines 88–103).  The preceding LLM call
(`generate_response`) is effectful and is supplied by the environment in
the agent models below; this function receives its result `response_text`.
-/

/-- Model of Python `str.find(c)`: index of the first occurrence, `-1` when
absent. -/
def strFind (s : String) (c : Char) : Int :=
  match s.data.findIdx? (· = c) with
  | some i => (i : Int)
  | none => -1

/-- Model of Python `str.rfind(c)`: index of the last occurrence, `-1` when
absent. -/
def strRfind (s : String) (c : Char) : Int :=
  match s.data.reverse.findIdx? (· = c) with
  | some i => ((s.data.length - 1 - i : Nat) : Int)
  | none => -1

/-- Model of the Python slice `s[a:b]` for the index ranges arising in
`generate_structured_response` (`0 ≤ a ≤ b`). -/
def strSlice (s : String) (a b : Int) : String :=
  String.mk (((s.data.drop a.toNat).take (b - a).toNat))

/-- Parsing phase of `GroqClient.generate_structured_response`: locate the
first `{` and the last `}`; when both exist and the last is after the
first, run `json.loads` on the span; a `JSONDecodeError` is caught and
turned into the fallback `{"response": text, "parse_error": str(e)}` (the
Python error message text is modelled by the constant string
`"JSONDecodeError"`); when no such span exists, `{"response": text}` is
returned from inside the `try` with no error raised. -/
def generate_structured_response (response_text : String) : Json :=
  let start_idx := strFind response_text lBraceChar
  let end_idx := strRfind response_text rBraceChar + 1
  if start_idx ≠ -1 ∧ start_idx < end_idx then
    match jsonLoads (strSlice response_text start_idx end_idx) with
    | some j => j
    | none =>
      Json.obj [("response", Json.str response_text),
                ("parse_error", Json.str "JSONDecodeError")]
  else
    Json.obj [("response", Json.str response_text)]

/-! ## Data models (`app/models/research.py`)

Timestamps (`datetime`) are modelled as abstract instants `Nat`; the
Pydantic range constraints (`ge`/`le`) on score fields are noted at each
use site rather than baked into the types. -/

/-- Agent types (`AgentType`). -/
inductive AgentType : Type where
  | researcher
  | critic
  | reviser
  deriving DecidableEq, Repr

/-- Research task status (`ResearchStatus`). -/
inductive ResearchStatus : Type where
  | pending
  | in_progress
  | reviewing
  | revising
  | completed
  | failed
  deriving DecidableEq, Repr

/-- Research query (`ResearchQuery`).  The Pydantic validator constrains
`depth_level` to `1 ≤ depth_level ≤ 5`; theorems about valid queries carry
that constraint as a hypothesis. -/
structure ResearchQuery : Type where
  topic : String
  subtopics : List String := []
  depth_level : Nat := 3
  requirements : Option String := none

/-- Research source (`ResearchSource`); `credibility_score` is constrained
by Pydantic to `[0, 1]`. -/
structure ResearchSource : Type where
  title : String
  url : Option String := none
  content : String
  credibility_score : ℚ := 0
  publication_date : Option Nat := none

/-- Research section (`ResearchSection`). -/
structure ResearchSection : Type where
  title : String
  content : String
  sources : List ResearchSource := []
  confidence_score : ℚ := 0

/-- Complete research report (`ResearchReport`). -/
structure ResearchReport : Type where
  id : Option String := none
  title : String
  abstract : String
  sections : List ResearchSection := []
  conclusion : String
  sources : List ResearchSource := []
  metadata : List (String × Json) := []
  created_at : Option Nat := none
  updated_at : Option Nat := none

/-- Critique feedback (`CritiqueFeedback`); `overall_score` is constrained
by Pydantic to `[0, 10]` (enforced in `critic_build_feedback` below, the
one place the model constructs it from untrusted data). -/
structure CritiqueFeedback : Type where
  overall_score : ℚ
  strengths : List String := []
  weaknesses : List String := []
  suggestions : List String := []
  specific_corrections : List (String × String) := []
  priority_issues : List String := []

/-- Agent log message.  The coordinator's `_log_agent_message` writes
`AgentMessage` records (an agent type plus a formatted string) to the
database; each constructor below stands for one of the f-string messages in
`coordinator.py`, carrying the data interpolated into it.  The sending
agent type is determined by the call site exactly as in the source. -/
inductive LogMsg : Type where
  | startingResearch (topic : String)
  | conductingInitialResearch
  | initialResearchCompleted (numSections : Nat)
  | analyzingReport
  | critiqueCompleted (score : ℚ)
  | qualityAcceptable (score : ℚ)
  | revisingReport
  | reviserCompleted (numSuggestions : Nat)
  | revisionCompleted (n : Nat)
  | maxRevisionsReached (m : Nat)
  | researchCompleted (topic : String)
  | researchFailed (err : String)

/-- Research task (`ResearchTask`).  `agent_messages` holds `AgentMessage`
records in the source, modelled by `LogMsg`; the coordinator never appends
to this in-memory field (messages go to the database), which the theorems
below make observable. -/
structure ResearchTask : Type where
  id : Option String := none
  query : ResearchQuery
  status : ResearchStatus := .pending
  current_report : Option ResearchReport := none
  feedback_history : List CritiqueFeedback := []
  agent_messages : List LogMsg := []
  retry_count : Nat := 0
  max_retries : Nat := 3
  created_at : Option Nat := none
  updated_at : Option Nat := none
  completed_at : Option Nat := none

/-! ## Critic agent (`app/agents/critic.py`)

`CriticAgent.process` builds the prompt, obtains a structured response
through `generate_structured_llm_response`, and constructs a
`CritiqueFeedback` with `feedback.get(key, default)` for each field.
Pydantic validation of the constructed model is included: a present but
ill-typed or out-of-range field raises `ValidationError` (numeric-string
coercion is not modelled; no claim depends on it). -/

/-- Read a JSON value as a Pydantic `float` field. -/
def scoreOfJson : Json → Option ℚ
  | .num q => some q
  | _ => none

/-- Read a JSON value as a Pydantic `List[str]` field. -/
def strListOfJson : Json → Option (List String)
  | .arr xs =>
    xs.mapM fun x =>
      match x with
      | .str s => some s
      | _ => none
  | _ => none

/-- Read a JSON value as a Pydantic `Dict[str, str]` field. -/
def strDictOfJson : Json → Option (List (String × String))
  | .obj kvs =>
    kvs.mapM fun kv =>
      match kv.2 with
      | .str s => some (kv.1, s)
      | _ => none
  | _ => none

/-- Construction of `CritiqueFeedback` from the structured response
(`critic.py`, lines 51–58): each field is `feedback.get(key, default)` with
default `5.0` for `overall_score` and empty collections for the rest;
`.error` models Pydantic `ValidationError` on an ill-typed or out-of-range
field. -/
def critic_build_feedback (response : Json) : Except String CritiqueFeedback :=
  match scoreOfJson ((response.get "overall_score").getD (.num 5)) with
  | none => .error "ValidationError: overall_score"
  | some sc =>
    if 0 ≤ sc ∧ sc ≤ 10 then
      match strListOfJson ((response.get "strengths").getD (.arr [])),
            strListOfJson ((response.get "weaknesses").getD (.arr [])),
            strListOfJson ((response.get "suggestions").getD (.arr [])),
            strDictOfJson ((response.get "specific_corrections").getD (.obj [])),
            strListOfJson ((response.get "priority_issues").getD (.arr [])) with
      | some st, some wk, some sg, some sp, some pr =>
        .ok { overall_score := sc, strengths := st, weaknesses := wk,
              suggestions := sg, specific_corrections := sp, priority_issues := pr }
      | _, _, _, _, _ => .error "ValidationError"
    else .error "ValidationError: overall_score out of range"

/-! ## Evidence-gathering tools

`WebSearchTool`, `WikipediaTool` and `ArxivTool` each wrap network calls in
`try`/`except` blocks that catch `Exception` and return an empty value.
The network itself is an environment of `Except`-valued functions: `.ok`
is a successful HTTP exchange (carrying the records the adapter would
build from the response body), `.error` is any raised exception, timeout,
or non-200 status (all of which the adapters treat alike). -/

/-- One web search record: the dict
`{"title": …, "snippet": …, "url": …, "source": …}` built by
`WebSearchTool` (the optional Tavily `score` entry is not modelled; no
claim reads it). -/
structure SearchResult : Type where
  title : String
  snippet : String
  url : String
  source : String
  deriving DecidableEq, Repr

/-- A Wikipedia search hit (`WikipediaTool.search` record). -/
structure WikiResult : Type where
  title : String
  snippet : String
  url : String
  deriving DecidableEq, Repr

/-- A Wikipedia article summary (`WikipediaTool.get_article_summary`
record). -/
structure WikiSummary : Type where
  title : String
  extract : String
  url : String
  deriving DecidableEq, Repr

/-- An arXiv paper record (`ArxivTool._parse_arxiv_response` entry). -/
structure ArxivResult : Type where
  title : String
  abstract : String
  url : String
  authors : List String
  deriving DecidableEq, Repr

/-- Network environment for the three evidence sources. -/
structure SourceEnv : Type where
  tavily_api_key : Option String := none
  tavily : String → Nat → Except String (List SearchResult)
  duckduckgo : String → Nat → Except String (List SearchResult)
  wikiSearch : String → Nat → Except String (List WikiResult)
  wikiSummary : String → Except String (Option WikiSummary)
  arxiv : String → Nat → Except String (List ArxivResult)

/-- Model of `WebSearchTool.search_tavily`: skipped without an API key;
a raised exception or failure status yields `[]`; at most `max_results`
records are kept. -/
def search_tavily (env : SourceEnv) (query : String) (max_results : Nat) :
    List SearchResult :=
  match env.tavily_api_key with
  | none => []
  | some _ =>
    match env.tavily query max_results with
    | .ok rs => rs.take max_results
    | .error _ => []

/-- Model of `WebSearchTool.search_duckduckgo`: a raised exception or
failure status yields `[]`; at most `max_results` records are kept. -/
def search_duckduckgo (env : SourceEnv) (query : String) (max_results : Nat) :
    List SearchResult :=
  match env.duckduckgo query max_results with
  | .ok rs => rs.take max_results
  | .error _ => []

/-- The placeholder record `WebSearchTool.search` substitutes when no
engine produced results. -/
def placeholderResult (query : String) : SearchResult :=
  { title := "Search: " ++ query,
    snippet := "No web results found. This is a placeholder for demonstration.",
    url := "https://example.com",
    source := "Placeholder" }

/-- Model of `WebSearchTool.search` (`web_search.py`, lines 124–150): try
Tavily when a key is configured and return its results if non-empty; fall
back to DuckDuckGo; when both yield nothing, return the single placeholder
record. -/
def WebSearchTool.search (env : SourceEnv) (query : String) (max_results : Nat) :
    List SearchResult :=
  let tav :=
    match env.tavily_api_key with
    | some _ => search_tavily env query max_results
    | none => []
  if tav ≠ [] then tav
  else
    let results := search_duckduckgo env query max_results
    if results = [] then [placeholderResult query] else results

/-- Model of `WebSearchTool.multi_query_search` (`web_search.py`, lines
152–165): one `search` per query, gathered; the
`isinstance(results, Exception)` branch maps a raised per-query error to
`[]`, and is unreachable here because `WebSearchTool.search` is total. -/
def multi_query_search (env : SourceEnv) (queries : List String)
    (max_results_per_query : Nat) : List (String × List SearchResult) :=
  queries.map fun q => (q, WebSearchTool.search env q max_results_per_query)

/-- Model of `WikipediaTool.search`: a raised exception or failure status
yields `[]`. -/
def WikipediaTool.search (env : SourceEnv) (query : String) (max_results : Nat) :
    List WikiResult :=
  match env.wikiSearch query max_results with
  | .ok rs => rs
  | .error _ => []

/-- Model of `WikipediaTool.search_and_summarize`: search, then fetch each
hit's summary, keeping the non-`None` ones (`get_article_summary` catches
its own errors and returns `None` for them). -/
def WikipediaTool.search_and_summarize (env : SourceEnv) (query : String)
    (max_articles : Nat) : List WikiSummary :=
  (WikipediaTool.search env query max_articles).filterMap fun r =>
    match env.wikiSummary r.title with
    | .ok s => s
    | .error _ => none

/-- Model of `ArxivTool.search`: a raised exception or failure status
yields `[]`. -/
def ArxivTool.search (env : SourceEnv) (query : String) (max_results : Nat) :
    List ArxivResult :=
  match env.arxiv query max_results with
  | .ok rs => rs
  | .error _ => []

/-- The evidence bundle built by `ResearcherAgent._gather_research_data`. -/
structure ResearchData : Type where
  web_results : List SearchResult
  wikipedia_results : List WikiSummary
  arxiv_results : List ArxivResult
  deriving DecidableEq, Repr

/-- Model of `ResearcherAgent._gather_research_data` (`researcher.py`,
lines 92–128): web search over topic and subtopics (3 results per query),
then Wikipedia (3 articles), then arXiv (5 papers), executed in sequence
inside one `try` whose `except` logs and returns the partial bundle.  The
`except` branch is unreachable in this model because every tool call above
is total (each adapter catches its own errors), so the body is written
straight-line. -/
def gather_research_data (env : SourceEnv) (query : ResearchQuery) : ResearchData :=
  let search_queries := query.topic :: query.subtopics
  let web_results :=
    (multi_query_search env search_queries 3).flatMap (fun p => p.2)
  let wikipedia_results := WikipediaTool.search_and_summarize env query.topic 3
  let arxiv_results := ArxivTool.search env query.topic 5
  { web_results := web_results,
    wikipedia_results := wikipedia_results,
    arxiv_results := arxiv_results }

/-! ## Coordinator (`app/orchestrator/coordinator.py`)

The three agent steps are effectful (they call the LLM); an `AgentEnv`
supplies their outcomes.  The critic step is expanded through the real
pipeline — LLM text, then `generate_structured_response`, then
`critic_build_feedback` — since the claims inspect exactly that chain; the
researcher and reviser steps are abstracted to their outcomes.  Each
function returns its result together with the list of messages it logs
through `_log_agent_message`; database writes of intermediate statuses
(`_update_task_status`) and report/feedback persistence are not modelled,
having no effect on the returned task. -/

/-- Outcomes of the effectful agent steps. -/
structure AgentEnv : Type where
  researcherProcess : ResearchQuery → Except String ResearchReport
  criticText : ResearchReport → Except String String
  reviserProcess : ResearchReport → CritiqueFeedback → Except String ResearchReport

/-- The coordinator's `self.min_quality_score = 7.0`. -/
def min_quality_score : ℚ := 7

/-- Model of `CriticAgent.process` as invoked from `_critique_report`: the
LLM structured-response pipeline followed by feedback construction.  A
failure of either stage propagates (is re-raised). -/
def critic_process (env : AgentEnv) (report : ResearchReport) :
    Except String CritiqueFeedback :=
  match env.criticText report with
  | .error e => .error e
  | .ok txt => critic_build_feedback (generate_structured_response txt)

/-- Body of the `while retry_count < max_retries` loop of
`_self_correction_loop` (`coordinator.py`, lines 142–167), with
`fuel = max_retries - retry_count`.  The returned pair carries the final
`current_report` and the final value of the loop-local `retry_count`
(which counts the revise calls performed); `.error` models an exception
from a critique or revise step propagating out of the loop.  Messages
logged by `_critique_report`, `_revise_report` and the loop itself are
returned in order. -/
def self_correction_steps (env : AgentEnv) :
    Nat → Nat → ResearchReport →
    Except String (ResearchReport × Nat) × List LogMsg
  | 0, retry_count, r => (.ok (r, retry_count), [])
  | fuel + 1, retry_count, r =>
    match critic_process env r with
    | .error e => (.error e, [.analyzingReport])
    | .ok feedback =>
      let critLog : List LogMsg :=
        [.analyzingReport, .critiqueCompleted feedback.overall_score]
      if min_quality_score ≤ feedback.overall_score then
        (.ok (r, retry_count), critLog ++ [.qualityAcceptable feedback.overall_score])
      else
        match env.reviserProcess r feedback with
        | .error e => (.error e, critLog ++ [.revisingReport])
        | .ok r2 =>
          let (res, tailLog) := self_correction_steps env fuel (retry_count + 1) r2
          (res,
           critLog ++
             [.revisingReport, .reviserCompleted feedback.suggestions.length,
              .revisionCompleted (retry_count + 1)] ++ tailLog)

/-- The self-correction loop with its retry budget as a parameter: run the
loop body from `retry_count = 0`, then log the `Maximum revisions`
message when the budget was exhausted (`coordinator.py`, lines 169–174). -/
def self_correction_loop_gen (env : AgentEnv) (max_retries : Nat)
    (initial_report : ResearchReport) :
    Except String (ResearchReport × Nat) × List LogMsg :=
  match self_correction_steps env max_retries 0 initial_report with
  | (.ok (r, rc), logs) =>
    (.ok (r, rc),
     logs ++ if max_retries ≤ rc then [.maxRevisionsReached max_retries] else [])
  | (.error e, logs) => (.error e, logs)

/-- Model of `_self_correction_loop`: the loop-local `max_retries` is the
literal `3` (`coordinator.py`, line 140). -/
def self_correction_loop (env : AgentEnv) (initial_report : ResearchReport) :
    Except String (ResearchReport × Nat) × List LogMsg :=
  self_correction_loop_gen env 3 initial_report

/-- Model of `ResearchCoordinator.conduct_research` (`coordinator.py`,
lines 49–113).  The task is created with `status=PENDING` and
`max_retries=3`; on success it is returned with `status=COMPLETED` and
`completed_at` set to the current instant `now`; an exception from any
step marks the task FAILED, logs `Research failed: …` as the final
message, and re-raises — modelled by `.error (e, failedTask)` carrying
both the re-raised error and the task as the caller's surviving reference
sees it. -/
def conduct_research (env : AgentEnv) (now : Nat) (query : ResearchQuery) :
    Except (String × ResearchTask) ResearchTask × List LogMsg :=
  let task0 : ResearchTask :=
    { query := query, status := .pending, max_retries := 3 }
  let startLog : List LogMsg :=
    [.startingResearch query.topic, .conductingInitialResearch]
  match env.researcherProcess query with
  | .error e =>
    (.error (e, { task0 with status := .failed }),
     startLog ++ [.researchFailed e])
  | .ok initial =>
    let midLog := startLog ++ [.initialResearchCompleted initial.sections.length]
    match self_correction_loop env initial with
    | (.error e, loopLog) =>
      (.error (e, { task0 with status := .failed, current_report := some initial }),
       midLog ++ loopLog ++ [.researchFailed e])
    | (.ok (finalReport, _), loopLog) =>
      (.ok { task0 with
              status := .completed,
              current_report := some finalReport,
              completed_at := some now },
       midLog ++ loopLog ++ [.researchCompleted query.topic])

/-! ## Observations and shared lemmas -/

/-- Count of `Revision n completed` messages in a log: the number of
revision cycles the loop completed. -/
def countRevs (logs : List LogMsg) : Nat :=
  logs.countP fun m =>
    match m with
    | .revisionCompleted _ => true
    | _ => false

/-- The task a normal return of `conduct_research` hands back, if any. -/
def returnedTask : Except (String × ResearchTask) ResearchTask → Option ResearchTask
  | .ok t => some t
  | .error _ => none

/-- Iterated revision: the report obtained after `n` critique-and-revise
cycles with critique function `c` and revise function `v`. -/
def revise_iter (c : ResearchReport → CritiqueFeedback)
    (v : ResearchReport → CritiqueFeedback → ResearchReport) :
    Nat → ResearchReport → ResearchReport
  | 0, r => r
  | n + 1, r => revise_iter c v n (v r (c r))

/-- The loop body completes at most `fuel` revision cycles. -/
theorem countRevs_steps_le (env : AgentEnv) :
    ∀ (fuel retry_count : Nat) (r : ResearchReport),
      countRevs (self_correction_steps env fuel retry_count r).2 ≤ fuel := by
  intro fuel
  induction fuel with
  | zero => intro rc r; simp [self_correction_steps, countRevs]
  | succ n ih =>
    intro rc r
    simp only [self_correction_steps]
    cases critic_process env r with
    | error e => simp [countRevs]
    | ok fb =>
      by_cases h : min_quality_score ≤ fb.overall_score
      · simp [h, countRevs]
      · simp only [h, if_false]
        cases env.reviserProcess r fb with
        | error e => simp [countRevs]
        | ok r2 =>
          have := ih (rc + 1) r2
          simp [countRevs, List.countP_append] at this ⊢
          omega

/-- On normal loop exit, the final retry count equals the starting count
plus the number of revision cycles logged, and exceeds the fuel by at most
the starting count: `retry_count` is incremented exactly once per revision
and is bounded by the budget. -/
theorem steps_retry_count_spec (env : AgentEnv) :
    ∀ (fuel retry_count : Nat) (r finalR : ResearchReport) (n : Nat),
      (self_correction_steps env fuel retry_count r).1 = .ok (finalR, n) →
      n = retry_count + countRevs (self_correction_steps env fuel retry_count r).2 ∧
        n ≤ retry_count + fuel := by
  intro fuel
  induction fuel with
  | zero =>
    intro rc r finalR n h
    simp [self_correction_steps] at h
    simp [self_correction_steps, countRevs, h]
  | succ m ih =>
    intro rc r finalR n
    simp only [self_correction_steps]
    cases hc : critic_process env r with
    | error e => intro h; simp at h
    | ok fb =>
      simp only []
      by_cases hq : min_quality_score ≤ fb.overall_score
      · simp only [hq, if_true]
        intro h
        simp at h
        simp [countRevs, h.1, h.2]
      · simp only [hq, if_false]
        cases hr : env.reviserProcess r fb with
        | error e => intro h; simp at h
        | ok r2 =>
          simp only []
          intro h
          have ih2 := ih (rc + 1) r2 finalR n h
          simp [countRevs, List.countP_append] at ih2 ⊢
          omega

/-- When every critique succeeds with a score below the gate and every
revise succeeds, the loop body runs its full budget: the result is the
`fuel`-fold revised report and the retry count grows by exactly `fuel`. -/
theorem steps_all_low (env : AgentEnv) (c : ResearchReport → CritiqueFeedback)
    (v : ResearchReport → CritiqueFeedback → ResearchReport)
    (hc : ∀ r, critic_process env r = .ok (c r))
    (hlow : ∀ r, (c r).overall_score < min_quality_score)
    (hv : ∀ r fb, env.reviserProcess r fb = .ok (v r fb)) :
    ∀ (fuel retry_count : Nat) (r : ResearchReport),
      (self_correction_steps env fuel retry_count r).1 =
        .ok (revise_iter c v fuel r, retry_count + fuel) := by
  intro fuel
  induction fuel with
  | zero => intro rc r; simp [self_correction_steps, revise_iter]
  | succ m ih =>
    intro rc r
    simp only [self_correction_steps, hc r, hv r (c r)]
    have hq : ¬ min_quality_score ≤ (c r).overall_score := not_le.mpr (hlow r)
    simp only [hq, if_false, revise_iter]
    have := ih (rc + 1) (v r (c r))
    simpa [Nat.add_comm, Nat.add_left_comm, Nat.add_assoc] using this

/-! ## Sample environments

Concrete instantiations used by the witnesses and counterexamples below. -/

/-- A concrete report. -/
def reportA : ResearchReport :=
  { title := "T", abstract := "A", conclusion := "C" }

/-- A concrete valid query. -/
def queryAI : ResearchQuery := { topic := "AI" }

/-- Revision marker used by the sample reviser. -/
def markRevised (r : ResearchReport) : ResearchReport :=
  { r with title := r.title ++ "R" }

/-- Agent environment whose critic always answers with score 2 (below the
quality gate) and whose researcher and reviser always succeed. -/
def envScoreLow : AgentEnv :=
  { researcherProcess := fun _ => .ok reportA,
    criticText := fun _ => .ok "\x7b\"overall_score\": 2\x7d",
    reviserProcess := fun r _ => .ok (markRevised r) }

/-- Agent environment whose critic always answers with score 8 (at or
above the quality gate). -/
def envScoreHigh : AgentEnv :=
  { envScoreLow with criticText := fun _ => .ok "\x7b\"overall_score\": 8\x7d" }

/-- Agent environment whose critic's LLM call raises. -/
def envCriticError : AgentEnv :=
  { envScoreLow with criticText := fun _ => .error "boom" }

/-- The critique function `envScoreLow` realizes. -/
def critiqueLow : ResearchReport → CritiqueFeedback := fun _ => { overall_score := 2 }

/-- The revise function `envScoreLow` realizes. -/
def reviseLow : ResearchReport → CritiqueFeedback → ResearchReport :=
  fun r _ => markRevised r

/-- Source environment in which every network call fails. -/
def envNetworkDown : SourceEnv :=
  { tavily_api_key := none,
    tavily := fun _ _ => .error "network down",
    duckduckgo := fun _ _ => .error "network down",
    wikiSearch := fun _ _ => .error "network down",
    wikiSummary := fun _ => .error "network down",
    arxiv := fun _ _ => .error "network down" }

/-! ## Claims -/

/-- C1: for every valid query (non-empty topic, depth between 1 and 5),
`conduct_research` terminates with the returned task COMPLETED on the
normal path and FAILED on the exception path, and the self-correction
loop never completes more than `max_retries` revision cycles, for any
retry budget (the source instantiates it at 3). -/
theorem conduct_research_terminates_bounded
    (env : AgentEnv) (now : Nat) (query : ResearchQuery)
    (htopic : query.topic ≠ "")
    (hdepth : 1 ≤ query.depth_level ∧ query.depth_level ≤ 5) :
    ((∀ t, (conduct_research env now query).1 = .ok t → t.status = .completed) ∧
      (∀ e t, (conduct_research env now query).1 = .error (e, t) →
        t.status = .failed)) ∧
    ∀ (max_retries : Nat) (r : ResearchReport),
      countRevs (self_correction_loop_gen env max_retries r).2 ≤ max_retries := by
  refine ⟨⟨?_, ?_⟩, ?_⟩
  · intro t
    simp only [conduct_research]
    cases env.researcherProcess query with
    | error e => intro ht; exact Except.noConfusion ht
    | ok initial =>
      simp only []
      rcases h2 : self_correction_loop env initial with ⟨res, logs⟩
      cases res with
      | error e => intro ht; exact Except.noConfusion ht
      | ok p =>
        obtain ⟨rf, k⟩ := p
        intro ht
        injection ht with h
        rw [← h]
  · intro e t
    simp only [conduct_research]
    cases env.researcherProcess query with
    | error e2 =>
      intro ht
      simp only [Except.error.injEq, Prod.mk.injEq] at ht
      rw [← ht.2]
    | ok initial =>
      simp only []
      rcases h2 : self_correction_loop env initial with ⟨res, logs⟩
      cases res with
      | error e2 =>
        intro ht
        simp only [Except.error.injEq, Prod.mk.injEq] at ht
        rw [← ht.2]
      | ok p =>
        obtain ⟨rf, k⟩ := p
        intro ht
        exact Except.noConfusion ht
  · intro mr r
    simp only [self_correction_loop_gen]
    rcases h : self_correction_steps env mr 0 r with ⟨res, logs⟩
    have hb := countRevs_steps_le env mr 0 r
    rw [h] at hb
    cases res with
    | error e => exact hb
    | ok p =>
      obtain ⟨rf, k⟩ := p
      have hz : countRevs (if mr ≤ k then [LogMsg.maxRevisionsReached mr] else []) = 0 := by
        by_cases hk : mr ≤ k <;> simp [hk, countRevs]
      simp only [countRevs, List.countP_append] at hb hz ⊢
      omega

/-- Witness for C1 at a concrete valid query and environment. -/
theorem conduct_research_terminates_bounded_witness :
    ((∀ t, (conduct_research envScoreHigh 0 queryAI).1 = .ok t →
        t.status = .completed) ∧
      (∀ e t, (conduct_research envScoreHigh 0 queryAI).1 = .error (e, t) →
        t.status = .failed)) ∧
    ∀ (max_retries : Nat) (r : ResearchReport),
      countRevs (self_correction_loop_gen envScoreHigh max_retries r).2 ≤
        max_retries :=
  conduct_research_terminates_bounded envScoreHigh 0 queryAI (by decide)
    (by decide)

/-- C10: `conduct_research` never returns a FAILED task: a normal return
carries status COMPLETED and a non-null `completed_at`, while FAILED is
observable only on the exception path, where the task reference the caller
holds has been marked FAILED before the error is re-raised. -/
theorem conduct_research_ok_never_failed
    (env : AgentEnv) (now : Nat) (query : ResearchQuery) :
    (∀ t, (conduct_research env now query).1 = .ok t →
      t.status = .completed ∧ t.completed_at ≠ none) ∧
    (∀ e t, (conduct_research env now query).1 = .error (e, t) →
      t.status = .failed) := by
  constructor
  · intro t
    simp only [conduct_research]
    cases env.researcherProcess query with
    | error e => intro ht; exact Except.noConfusion ht
    | ok initial =>
      simp only []
      rcases h2 : self_correction_loop env initial with ⟨res, logs⟩
      cases res with
      | error e => intro ht; exact Except.noConfusion ht
      | ok p =>
        obtain ⟨rf, k⟩ := p
        intro ht
        injection ht with h
        rw [← h]
        exact ⟨rfl, by simp⟩
  · intro e t
    simp only [conduct_research]
    cases env.researcherProcess query with
    | error e2 =>
      intro ht
      simp only [Except.error.injEq, Prod.mk.injEq] at ht
      rw [← ht.2]
    | ok initial =>
      simp only []
      rcases h2 : self_correction_loop env initial with ⟨res, logs⟩
      cases res with
      | error e2 =>
        intro ht
        simp only [Except.error.injEq, Prod.mk.injEq] at ht
        rw [← ht.2]
      | ok p =>
        obtain ⟨rf, k⟩ := p
        intro ht
        exact Except.noConfusion ht

/-- Witness for C10: both directions applied on concrete runs. -/
theorem conduct_research_ok_never_failed_witness :
    ((conduct_research envScoreHigh 0 queryAI).1 =
        .ok { query := queryAI, status := .completed, max_retries := 3,
              current_report := some reportA, completed_at := some 0 }) ∧
    ({ query := queryAI, status := .completed, max_retries := 3,
       current_report := some reportA,
       completed_at := some 0 : ResearchTask }.status = .completed ∧
      ({ query := queryAI, status := .completed, max_retries := 3,
         current_report := some reportA,
         completed_at := some 0 : ResearchTask }.completed_at ≠ none)) :=
  ⟨rfl, (conduct_research_ok_never_failed envScoreHigh 0 queryAI).1 _ rfl⟩

/-- C4: when the first critique scores at or above the quality threshold,
zero revise calls occur, the loop hands back the initial report, and
`conduct_research` returns it unchanged in a COMPLETED task. -/
theorem first_critique_pass_returns_initial
    (env : AgentEnv) (now : Nat) (query : ResearchQuery)
    (r0 : ResearchReport) (fb : CritiqueFeedback)
    (hres : env.researcherProcess query = .ok r0)
    (hcrit : critic_process env r0 = .ok fb)
    (hhigh : min_quality_score ≤ fb.overall_score) :
    (self_correction_loop env r0).1 = .ok (r0, 0) ∧
    countRevs (self_correction_loop env r0).2 = 0 ∧
    (conduct_research env now query).1 =
      .ok { query := query, status := .completed, max_retries := 3,
            current_report := some r0, completed_at := some now } := by
  have hloop : self_correction_loop env r0 =
      (.ok (r0, 0),
       [.analyzingReport, .critiqueCompleted fb.overall_score,
        .qualityAcceptable fb.overall_score]) := by
    simp [self_correction_loop, self_correction_loop_gen, self_correction_steps,
      hcrit, hhigh]
  refine ⟨by rw [hloop], by rw [hloop]; simp [countRevs], ?_⟩
  simp only [conduct_research, hres, hloop]

/-- Witness for C4 on the concrete high-scoring environment. -/
theorem first_critique_pass_returns_initial_witness :
    (self_correction_loop envScoreHigh reportA).1 = .ok (reportA, 0) ∧
    countRevs (self_correction_loop envScoreHigh reportA).2 = 0 ∧
    (conduct_research envScoreHigh 0 queryAI).1 =
      .ok { query := queryAI, status := .completed, max_retries := 3,
            current_report := some reportA, completed_at := some 0 } :=
  first_critique_pass_returns_initial envScoreHigh 0 queryAI reportA
    { overall_score := 8 } rfl rfl (by decide)

/-- C2: when every critique succeeds with a score below the threshold and
every revise succeeds, the loop performs exactly `max_retries = 3` revise
calls and `conduct_research` returns the last revised report in a
COMPLETED (not FAILED) task. -/
theorem low_scores_exhaust_retries_completed
    (env : AgentEnv) (now : Nat) (query : ResearchQuery) (r0 : ResearchReport)
    (c : ResearchReport → CritiqueFeedback)
    (v : ResearchReport → CritiqueFeedback → ResearchReport)
    (hres : env.researcherProcess query = .ok r0)
    (hc : ∀ r, critic_process env r = .ok (c r))
    (hlow : ∀ r, (c r).overall_score < min_quality_score)
    (hv : ∀ r fb, env.reviserProcess r fb = .ok (v r fb)) :
    (self_correction_loop env r0).1 = .ok (revise_iter c v 3 r0, 3) ∧
    countRevs (self_correction_loop env r0).2 = 3 ∧
    (conduct_research env now query).1 =
      .ok { query := query, status := .completed, max_retries := 3,
            current_report := some (revise_iter c v 3 r0),
            completed_at := some now } := by
  have hsteps := steps_all_low env c v hc hlow hv 3 0 r0
  rcases h : self_correction_steps env 3 0 r0 with ⟨res, logs⟩
  rw [h] at hsteps
  simp only [] at hsteps
  subst hsteps
  have hcount := steps_retry_count_spec env 3 0 r0 (revise_iter c v 3 r0) 3
    (by rw [h])
  rw [h] at hcount
  have hloop : self_correction_loop env r0 =
      (.ok (revise_iter c v 3 r0, 3), logs ++ [.maxRevisionsReached 3]) := by
    simp [self_correction_loop, self_correction_loop_gen, h]
  refine ⟨by rw [hloop], ?_, ?_⟩
  · rw [hloop]
    have h1 := hcount.1
    simp only [countRevs, List.countP_append] at h1 ⊢
    simp at h1 ⊢
    omega
  · simp only [conduct_research, hres, hloop]

/-- Witness for C2 on the concrete always-low-score environment. -/
theorem low_scores_exhaust_retries_completed_witness :
    (self_correction_loop envScoreLow reportA).1 =
      .ok (revise_iter critiqueLow reviseLow 3 reportA, 3) ∧
    countRevs (self_correction_loop envScoreLow reportA).2 = 3 ∧
    (conduct_research envScoreLow 0 queryAI).1 =
      .ok { query := queryAI, status := .completed, max_retries := 3,
            current_report := some (revise_iter critiqueLow reviseLow 3 reportA),
            completed_at := some 0 } :=
  low_scores_exhaust_retries_completed envScoreLow 0 queryAI reportA
    critiqueLow reviseLow rfl (fun _ => rfl)
    (fun _ => by show (2 : ℚ) < (7 : ℚ); norm_num) (fun _ _ => rfl)

/-- C5: when the produce step, or any critique or revise step inside the
loop, raises, `conduct_research` marks the task FAILED, logs
`Research failed: …` with the raised error as its final agent message, and
re-raises the same error to the caller. -/
theorem failure_marks_failed_and_reraises
    (env : AgentEnv) (now : Nat) (query : ResearchQuery) (e : String)
    (hfail : env.researcherProcess query = .error e ∨
      ∃ r0, env.researcherProcess query = .ok r0 ∧
        (self_correction_loop env r0).1 = .error e) :
    ∃ t, (conduct_research env now query).1 = .error (e, t) ∧
      t.status = .failed ∧
      (conduct_research env now query).2.getLast? =
        some (.researchFailed e) := by
  rcases hfail with h | ⟨r0, hok, herr⟩
  · refine ⟨{ query := query, status := .failed, max_retries := 3 }, ?_, rfl, ?_⟩
    · simp [conduct_research, h]
    · simp [conduct_research, h]
  · simp only [conduct_research, hok]
    rcases h2 : self_correction_loop env r0 with ⟨res, logs⟩
    rw [h2] at herr
    simp only [] at herr
    subst herr
    exact ⟨{ query := query, status := .failed, max_retries := 3,
             current_report := some r0 }, rfl, rfl,
           by simp only []; rw [List.getLast?_append_cons]; rfl⟩

/-- Witness for C5: the critic's LLM call raising propagates as claimed. -/
theorem failure_marks_failed_and_reraises_witness :
    ∃ t, (conduct_research envCriticError 0 queryAI).1 = .error ("boom", t) ∧
      t.status = .failed ∧
      (conduct_research envCriticError 0 queryAI).2.getLast? =
        some (.researchFailed "boom") :=
  failure_marks_failed_and_reraises envCriticError 0 queryAI "boom"
    (Or.inr ⟨reportA, rfl, rfl⟩)

/-- C3 counterexample: on a run that performs three revisions, the
returned task's `retry_count` field is `0`, not `3` — the field is never
updated by the coordinator. -/
theorem retry_count_field_stays_zero_cex :
    countRevs (conduct_research envScoreLow 0 queryAI).2 = 3 ∧
    (returnedTask (conduct_research envScoreLow 0 queryAI).1).map
        ResearchTask.retry_count = some 0 ∧
    (0 : Nat) ≠ 3 :=
  ⟨rfl, rfl, by decide⟩

/-- C3 amended: the loop-local retry counter is incremented exactly once
per revised report (the final count equals the starting count plus the
number of revision-completed messages, and never exceeds the budget), but
the `retry_count` field of the returned task is never modified: it keeps
its creation default `0`, which satisfies `retry_count ≤ max_retries` yet
equals the number of revisions performed only when that number is zero. -/
theorem retry_count_local_not_task_field
    (env : AgentEnv) (now : Nat) (query : ResearchQuery) :
    (∀ fuel rc r finalR n,
      (self_correction_steps env fuel rc r).1 = .ok (finalR, n) →
      n = rc + countRevs (self_correction_steps env fuel rc r).2 ∧
        n ≤ rc + fuel) ∧
    (∀ t, (conduct_research env now query).1 = .ok t →
      t.retry_count = 0 ∧ t.retry_count ≤ t.max_retries) := by
  constructor
  · exact fun fuel rc r finalR n h => steps_retry_count_spec env fuel rc r finalR n h
  · intro t
    simp only [conduct_research]
    cases env.researcherProcess query with
    | error e => intro ht; exact Except.noConfusion ht
    | ok initial =>
      simp only []
      rcases h2 : self_correction_loop env initial with ⟨res, logs⟩
      cases res with
      | error e => intro ht; exact Except.noConfusion ht
      | ok p =>
        obtain ⟨rf, k⟩ := p
        intro ht
        injection ht with h
        rw [← h]
        exact ⟨rfl, Nat.zero_le _⟩

/-- Witness for the amended C3 on a concrete exhausted run. -/
theorem retry_count_local_not_task_field_witness :
    (3 = 0 + countRevs (self_correction_steps envScoreLow 3 0 reportA).2 ∧
      3 ≤ 0 + 3) ∧
    (({ query := queryAI, status := .completed, max_retries := 3,
        current_report := some (revise_iter critiqueLow reviseLow 3 reportA),
        completed_at := some 0 : ResearchTask }).retry_count = 0 ∧
      ({ query := queryAI, status := .completed, max_retries := 3,
         current_report := some (revise_iter critiqueLow reviseLow 3 reportA),
         completed_at := some 0 : ResearchTask }).retry_count ≤
        ({ query := queryAI, status := .completed, max_retries := 3,
           current_report := some (revise_iter critiqueLow reviseLow 3 reportA),
           completed_at := some 0 : ResearchTask }).max_retries) :=
  ⟨(retry_count_local_not_task_field envScoreLow 0 queryAI).1 3 0 reportA
      (revise_iter critiqueLow reviseLow 3 reportA) 3 rfl,
    (retry_count_local_not_task_field envScoreLow 0 queryAI).2 _ rfl⟩

/-- C6 counterexample: on the parser's unstructured fallback (here, critic
prose with no usable data block), the critique step returns normally with
the fabricated default score `5.0` instead of raising any error. -/
theorem critic_fallback_score_cex :
    critic_build_feedback (generate_structured_response "The report is weak.") =
      .ok { overall_score := 5 } :=
  rfl

/-- C6 amended: no `MalformedGenerationOutput` error exists in the code;
when the structured response lacks an `overall_score` entry — in
particular on both fallback shapes the parser can produce — the critic
substitutes the Pydantic-validated default score `5.0` and completes
normally. -/
theorem critic_missing_score_defaults (raw : String) :
    critic_build_feedback (Json.obj [("response", Json.str raw)]) =
      .ok { overall_score := 5 } ∧
    critic_build_feedback
        (Json.obj [("response", Json.str raw),
                   ("parse_error", Json.str "JSONDecodeError")]) =
      .ok { overall_score := 5 } :=
  ⟨rfl, rfl⟩

/-- C7 counterexample: on input with no braces, the fallback wraps the raw
text but carries no parse-error marker, contrary to the claim. -/
theorem no_brace_fallback_lacks_marker_cex :
    generate_structured_response "no braces here" =
      Json.obj [("response", Json.str "no braces here")] ∧
    (Json.obj [("response", Json.str "no braces here")]).get "parse_error" =
      none :=
  ⟨rfl, rfl⟩

/-- C7 amended: the extraction takes the span from the first opening brace
to the last closing brace; `preamble {"a":1} trailer` yields the object
`{a:1}`; `no braces here` yields the fallback wrapping the raw text
without a parse-error marker; `{bad json}` yields the fallback with the
parse-error marker; and on every input the result is one of exactly these
three shapes — the function never raises. -/
theorem structured_extraction_spec :
    generate_structured_response "preamble \x7b\"a\":1\x7d trailer" =
      Json.obj [("a", Json.num 1)] ∧
    generate_structured_response "no braces here" =
      Json.obj [("response", Json.str "no braces here")] ∧
    generate_structured_response "\x7bbad json\x7d" =
      Json.obj [("response", Json.str "\x7bbad json\x7d"),
                ("parse_error", Json.str "JSONDecodeError")] ∧
    ∀ s : String,
      generate_structured_response s = Json.obj [("response", Json.str s)] ∨
      generate_structured_response s =
        Json.obj [("response", Json.str s),
                  ("parse_error", Json.str "JSONDecodeError")] ∨
      ∃ j, jsonLoads
            (strSlice s (strFind s lBraceChar) (strRfind s rBraceChar + 1)) =
          some j ∧
        generate_structured_response s = j := by
  refine ⟨rfl, rfl, rfl, ?_⟩
  intro s
  by_cases hcond : strFind s lBraceChar ≠ -1 ∧
      strFind s lBraceChar < strRfind s rBraceChar + 1
  · rcases hj : jsonLoads
        (strSlice s (strFind s lBraceChar) (strRfind s rBraceChar + 1)) with
      _ | j
    · right; left
      simp [generate_structured_response, hcond, hj]
    · right; right
      exact ⟨j, rfl, by simp [generate_structured_response, hcond, hj]⟩
  · left
    simp [generate_structured_response, hcond]

/-- C8 counterexample: with every network call failing, the web slot of
the gathered bundle holds the placeholder record, not an empty result
set. -/
theorem web_source_failure_not_empty_cex :
    gather_research_data envNetworkDown queryAI =
      { web_results := [placeholderResult "AI"],
        wikipedia_results := [], arxiv_results := [] } ∧
    [placeholderResult "AI"] ≠ ([] : List SearchResult) :=
  ⟨rfl, by simp⟩

/-- C8 amended: the three sources are consulted in sequence with failure
isolation implemented inside each adapter, so a failure of one source
never prevents the others from being queried nor aborts the caller — the
bundle's other slots are exactly what the other adapters return — and a
Wikipedia or arXiv failure yields an empty result set for that source;
but a total web-search failure yields the single placeholder record
rather than an empty set. -/
theorem gather_source_isolation (env : SourceEnv) (query : ResearchQuery) :
    (∀ e, env.wikiSearch query.topic 3 = .error e →
      (gather_research_data env query).wikipedia_results = [] ∧
      (gather_research_data env query).arxiv_results =
        ArxivTool.search env query.topic 5 ∧
      (gather_research_data env query).web_results =
        (multi_query_search env (query.topic :: query.subtopics) 3).flatMap
          (fun p => p.2)) ∧
    (∀ e, env.arxiv query.topic 5 = .error e →
      (gather_research_data env query).arxiv_results = [] ∧
      (gather_research_data env query).wikipedia_results =
        WikipediaTool.search_and_summarize env query.topic 3 ∧
      (gather_research_data env query).web_results =
        (multi_query_search env (query.topic :: query.subtopics) 3).flatMap
          (fun p => p.2)) ∧
    (∀ q et ed, (env.tavily_api_key = none ∨ env.tavily q 3 = .error et) →
      env.duckduckgo q 3 = .error ed →
      WebSearchTool.search env q 3 = [placeholderResult q]) := by
  refine ⟨?_, ?_, ?_⟩
  · intro e h
    refine ⟨?_, rfl, rfl⟩
    simp [gather_research_data, WikipediaTool.search_and_summarize,
      WikipediaTool.search, h]
  · intro e h
    refine ⟨?_, rfl, rfl⟩
    simp [gather_research_data, ArxivTool.search, h]
  · intro q et ed htav hddg
    rcases htav with hk | he
    · simp [WebSearchTool.search, hk, search_duckduckgo, hddg]
    · cases hk2 : env.tavily_api_key with
      | none => simp [WebSearchTool.search, hk2, search_duckduckgo, hddg]
      | some k =>
        simp [WebSearchTool.search, hk2, search_tavily, he,
          search_duckduckgo, hddg]

/-- Witness for the amended C8 with every network call failing. -/
theorem gather_source_isolation_witness :
    ((gather_research_data envNetworkDown queryAI).wikipedia_results = [] ∧
      (gather_research_data envNetworkDown queryAI).arxiv_results =
        ArxivTool.search envNetworkDown queryAI.topic 5 ∧
      (gather_research_data envNetworkDown queryAI).web_results =
        (multi_query_search envNetworkDown
            (queryAI.topic :: queryAI.subtopics) 3).flatMap (fun p => p.2)) ∧
    WebSearchTool.search envNetworkDown "AI" 3 = [placeholderResult "AI"] :=
  ⟨(gather_source_isolation envNetworkDown queryAI).1 "network down" rfl,
    (gather_source_isolation envNetworkDown queryAI).2.2 "AI" "x"
      "network down" (Or.inl rfl) rfl⟩

/-- C9 counterexample: when the underlying search fails, the adapter
returns the fabricated placeholder record, not an empty sequence. -/
theorem failed_search_returns_placeholder_cex :
    WebSearchTool.search envNetworkDown "quantum computing" 5 =
      [placeholderResult "quantum computing"] ∧
    [placeholderResult "quantum computing"] ≠ ([] : List SearchResult) :=
  ⟨rfl, by simp⟩

/-- C9 amended: the adapter never lets an engine failure escape its own
boundary — each engine wrapper converts a raised error to `[]`, and
`search` itself is a total function of the engine outcomes — but when
every engine fails or finds nothing, `search` returns the single
placeholder record (source `"Placeholder"`) rather than an empty
sequence. -/
theorem web_search_never_raises_placeholder
    (env : SourceEnv) (q : String) (n : Nat) :
    (∀ e, env.duckduckgo q n = .error e → search_duckduckgo env q n = []) ∧
    (∀ e, env.tavily q n = .error e → search_tavily env q n = []) ∧
    (∀ et ed, (env.tavily_api_key = none ∨ env.tavily q n = .error et) →
      env.duckduckgo q n = .error ed →
      WebSearchTool.search env q n = [placeholderResult q]) := by
  refine ⟨?_, ?_, ?_⟩
  · intro e h
    simp [search_duckduckgo, h]
  · intro e h
    cases hk : env.tavily_api_key with
    | none => simp [search_tavily, hk]
    | some k => simp [search_tavily, hk, h]
  · intro et ed htav hddg
    rcases htav with hk | he
    · simp [WebSearchTool.search, hk, search_duckduckgo, hddg]
    · cases hk2 : env.tavily_api_key with
      | none => simp [WebSearchTool.search, hk2, search_duckduckgo, hddg]
      | some k =>
        simp [WebSearchTool.search, hk2, search_tavily, he,
          search_duckduckgo, hddg]

/-- Witness for the amended C9 with every engine failing. -/
theorem web_search_never_raises_placeholder_witness :
    search_duckduckgo envNetworkDown "AI" 5 = [] ∧
    search_tavily envNetworkDown "AI" 5 = [] ∧
    WebSearchTool.search envNetworkDown "AI" 5 = [placeholderResult "AI"] :=
  ⟨(web_search_never_raises_placeholder envNetworkDown "AI" 5).1
      "network down" rfl,
    (web_search_never_raises_placeholder envNetworkDown "AI" 5).2.1
      "network down" rfl,
    (web_search_never_raises_placeholder envNetworkDown "AI" 5).2.2
      "network down" "network down" (Or.inl rfl) rfl⟩

/-- Witness for the amended C6 at a concrete raw text. -/
theorem critic_missing_score_defaults_witness :
    critic_build_feedback (Json.obj [("response", Json.str "garbage")]) =
      .ok { overall_score := 5 } ∧
    critic_build_feedback
        (Json.obj [("response", Json.str "garbage"),
                   ("parse_error", Json.str "JSONDecodeError")]) =
      .ok { overall_score := 5 } :=
  critic_missing_score_defaults "garbage"
